import Mathlib

/-!
# Verification of the strict-csp core

A shallow embedding of the `StrictCsp` module (policy builder, hasher and
DOM rewriter) together with theorems checking the specification's claims
against it.

JavaScript specifics captured by the embedding:
* a plain object with string keys preserves insertion order, so the CSP
  directive template is an ordered association list;
* optional boolean fields of the `cspOptions` object are `Option Bool`,
  and a condition `if (o.field)` is truthiness: `none` (absent/undefined)
  and `some false` are falsy, `some true` is truthy;
* the optional parameters of `getStrictCsp` are `Option` arguments whose
  defaults are substituted only when the argument is omitted (`none`).
-/

namespace Sha256

/-!
The `crypto.createHash('sha256').update(text, 'utf-8').digest('base64')`
pipeline used by `StrictCsp.hashInlineObject`, embedded as executable
functions over `Nat` (bytes are `Nat < 256`, words are `Nat < 2^32`).
-/

/-- Reduce a `Nat` to a 32-bit word. -/
def w32 (n : Nat) : Nat := n % 4294967296

/-- 32-bit right rotation. -/
def rotr (x n : Nat) : Nat := w32 ((x >>> n) ||| (x <<< (32 - n)))

/-- FIPS 180-4 `Σ0`. -/
def bigSigma0 (x : Nat) : Nat := rotr x 2 ^^^ rotr x 13 ^^^ rotr x 22

/-- FIPS 180-4 `Σ1`. -/
def bigSigma1 (x : Nat) : Nat := rotr x 6 ^^^ rotr x 11 ^^^ rotr x 25

/-- FIPS 180-4 `σ0`. -/
def smallSigma0 (x : Nat) : Nat := rotr x 7 ^^^ rotr x 18 ^^^ (x >>> 3)

/-- FIPS 180-4 `σ1`. -/
def smallSigma1 (x : Nat) : Nat := rotr x 17 ^^^ rotr x 19 ^^^ (x >>> 10)

/-- FIPS 180-4 `Ch` (`NOT e` on 32 bits is `e XOR 0xffffffff`). -/
def chf (e f g : Nat) : Nat := (e &&& f) ^^^ ((e ^^^ 4294967295) &&& g)

/-- FIPS 180-4 `Maj`. -/
def majf (a b c : Nat) : Nat := (a &&& b) ^^^ (a &&& c) ^^^ (b &&& c)

/-- The 64 SHA-256 round constants. -/
def K : List Nat :=
  [1116352408, 1899447441, 3049323471, 3921009573, 961987163, 1508970993,
   2453635748, 2870763221, 3624381080, 310598401, 607225278, 1426881987,
   1925078388, 2162078206, 2614888103, 3248222580, 3835390401, 4022224774,
   264347078, 604807628, 770255983, 1249150122, 1555081692, 1996064986,
   2554220882, 2821834349, 2952996808, 3210313671, 3336571891, 3584528711,
   113926993, 338241895, 666307205, 773529912, 1294757372, 1396182291,
   1695183700, 1986661051, 2177026350, 2456956037, 2730485921, 2820302411,
   3259730800, 3345764771, 3516065817, 3600352804, 4094571909, 275423344,
   430227734, 506948616, 659060556, 883997877, 958139571, 1322822218,
   1537002063, 1747873779, 1955562222, 2024104815, 2227730452, 2361852424,
   2428436474, 2756734187, 3204031479, 3329325298]

/-- The SHA-256 initial hash value. -/
def H0 : List Nat :=
  [1779033703, 3144134277, 1013904242, 2773480762,
   1359893119, 2600822924, 528734635, 1541459225]

/-- Extend a 16-word block to the 64-word message schedule. -/
def schedule (ws : Array Nat) : Array Nat :=
  (List.range 48).foldl
    (fun W _ =>
      W.push (w32 (smallSigma1 (W.getD (W.size - 2) 0) + W.getD (W.size - 7) 0
        + smallSigma0 (W.getD (W.size - 15) 0) + W.getD (W.size - 16) 0)))
    ws

/-- One compression round; the state is the 8-word list `[a,…,h]`. -/
def round (st : List Nat) (kw : Nat) : List Nat :=
  match st with
  | [a, b, c, d, e, f, g, h] =>
    let t1 := w32 (h + bigSigma1 e + chf e f g + kw)
    let t2 := w32 (bigSigma0 a + majf a b c)
    [w32 (t1 + t2), a, b, c, w32 (d + t1), e, f, g]
  | st => st

/-- Compress one 16-word block into the running hash value. -/
def compress (H : List Nat) (block : List Nat) : List Nat :=
  let W := schedule block.toArray
  let kws := List.zipWith (fun k w => w32 (k + w)) K W.toList
  let st := kws.foldl round H
  List.zipWith (fun x y => w32 (x + y)) H st

/-- SHA-256 padding: `0x80`, zeros to 56 mod 64, 8-byte big-endian bit length. -/
def padBytes (msg : List Nat) : List Nat :=
  let len := msg.length
  let zeros := (120 - ((len + 1) % 64)) % 64
  msg ++ 128 :: List.replicate zeros 0
    ++ (List.range 8).map (fun i => ((len * 8) >>> (8 * (7 - i))) % 256)

/-- Big-endian grouping of bytes into 32-bit words. -/
def bytesToWords : List Nat → List Nat
  | a :: b :: c :: d :: rest => (((a * 256 + b) * 256 + c) * 256 + d) :: bytesToWords rest
  | _ => []

/-- Split a word list into 16-word blocks. -/
def chunks16 : List Nat → List (List Nat)
  | w0 :: w1 :: w2 :: w3 :: w4 :: w5 :: w6 :: w7 ::
    w8 :: w9 :: w10 :: w11 :: w12 :: w13 :: w14 :: w15 :: rest =>
    [w0, w1, w2, w3, w4, w5, w6, w7, w8, w9, w10, w11, w12, w13, w14, w15] :: chunks16 rest
  | _ => []

/-- The SHA-256 digest (32 bytes) of a byte sequence. -/
def sha256Bytes (msg : List Nat) : List Nat :=
  let Hf := (chunks16 (bytesToWords (padBytes msg))).foldl compress H0
  (Hf.map (fun w => [w >>> 24 % 256, (w >>> 16) % 256, (w >>> 8) % 256, w % 256])).flatten

/-- The standard base64 alphabet. -/
def base64Alphabet : String := "ABCDEFGHIJKLMNOPQRSTUVWXYZabcdefghijklmnopqrstuvwxyz0123456789+/"

/-- The base64 digit for a 6-bit value. -/
def b64Char (n : Nat) : Char := base64Alphabet.toList.getD n 'A'

/-- Standard base64 encoding with `=` padding, as `digest('base64')` emits. -/
def base64Encode : List Nat → String
  | [] => ""
  | [a] => String.mk [b64Char (a >>> 2), b64Char ((a % 4) <<< 4)] ++ "=="
  | [a, b] =>
    String.mk [b64Char (a >>> 2), b64Char (((a % 4) <<< 4) + (b >>> 4)),
      b64Char ((b % 16) <<< 2)] ++ "="
  | a :: b :: c :: rest =>
    String.mk [b64Char (a >>> 2), b64Char (((a % 4) <<< 4) + (b >>> 4)),
      b64Char (((b % 16) <<< 2) + (c >>> 6)), b64Char (c % 64)] ++ base64Encode rest

/-- UTF-8 encoding of one code point. -/
def utf8EncodeChar (c : Char) : List Nat :=
  let n := c.toNat
  if n < 128 then [n]
  else if n < 2048 then [192 + (n >>> 6), 128 + (n % 64)]
  else if n < 65536 then [224 + (n >>> 12), 128 + ((n >>> 6) % 64), 128 + (n % 64)]
  else [240 + (n >>> 18), 128 + ((n >>> 12) % 64), 128 + ((n >>> 6) % 64), 128 + (n % 64)]

/-- UTF-8 encoding of a string (`update(text, 'utf-8')`). -/
def utf8Encode (s : String) : List Nat := (s.data.map utf8EncodeChar).flatten

end Sha256

namespace StrictCsp

/-- `'sha256'` (the `HASH_FUNCTION` constant of the class). -/
def HASH_FUNCTION : String := "sha256"

/-- `StrictCsp.hashInlineObject`: SHA-256 of the UTF-8 text, base64,
wrapped as `'sha256-<digest>'`. -/
def hashInlineObject (scriptText : String) : String :=
  let hash := Sha256.base64Encode (Sha256.sha256Bytes (Sha256.utf8Encode scriptText))
  "'" ++ HASH_FUNCTION ++ "-" ++ hash ++ "'"

/-- The three optional boolean fields of the `cspOptions` parameter of
`getStrictCsp`.  `none` models an absent (hence `undefined`) field. -/
structure CspOptions where
  enableBrowserFallbacks : Option Bool
  enableTrustedTypes : Option Bool
  enableUnsafeEval : Option Bool
deriving Repr, DecidableEq

/-- JavaScript truthiness of an optional boolean: `undefined` and `false`
are falsy. -/
def truthy (o : Option Bool) : Bool := o.getD false

/-- The default value of the `cspOptions` parameter, used when the caller
omits the argument entirely. -/
def defaultCspOptions : CspOptions :=
  { enableBrowserFallbacks := some true
    enableTrustedTypes := some false
    enableUnsafeEval := some false }

/-- The directive template: an ordered association list from directive
name to token list, mirroring a JS object's insertion order. -/
abbrev CspTemplate := List (String × List String)

/-- `strictCspTemplate['script-src'].push(...)`: append tokens to the
named directive's token list, keeping every entry in place. -/
def pushTokens (tpl : CspTemplate) (key : String) (ts : List String) : CspTemplate :=
  tpl.map (fun p => if p.1 == key then (p.1, p.2 ++ ts) else p)

/-- The object spread `{...tpl, ...{key: v}}`: replace the value if the
key is present, otherwise append the new entry at the end. -/
def setKey (tpl : CspTemplate) (key : String) (v : List String) : CspTemplate :=
  if tpl.any (fun p => p.1 == key) then
    tpl.map (fun p => if p.1 == key then (p.1, v) else p)
  else
    tpl ++ [(key, v)]

/-- The directive template built by `getStrictCsp` just before
serialization: the four fixed directives, then the browser-fallback
pushes, the Trusted-Types spread and the `'unsafe-eval'` push, in the
source's order. -/
def getStrictCspTemplate (scriptHashes styleHashes : List String)
    (cspOptions : CspOptions) : CspTemplate :=
  let tpl : CspTemplate :=
    [("script-src", "'strict-dynamic'" :: scriptHashes),
     ("style-src", styleHashes),
     ("object-src", ["'none'"]),
     ("base-uri", ["'self'"])]
  let tpl :=
    if truthy cspOptions.enableBrowserFallbacks then
      let tpl := pushTokens tpl "script-src" ["https:"]
      if scriptHashes.length > 0 then
        pushTokens tpl "script-src" ["'unsafe-inline'"]
      else tpl
    else tpl
  let tpl :=
    if truthy cspOptions.enableTrustedTypes then
      setKey tpl "require-trusted-types-for" ["'script'"]
    else tpl
  if truthy cspOptions.enableUnsafeEval then
    pushTokens tpl "script-src" ["'unsafe-eval'"]
  else tpl

/-- `Object.entries(tpl).map(([d, vs]) => d + " " + vs.join(' ') + ";").join('')`. -/
def serializeTemplate (tpl : CspTemplate) : String :=
  String.join (tpl.map (fun p => p.1 ++ " " ++ String.intercalate " " p.2 ++ ";"))

/-- `StrictCsp.getStrictCsp`.  The three parameters are optional; an
omitted hash list (`none`, or JS `undefined`, falsy) is replaced by `[]`
via `scriptHashes || []`, and an omitted `cspOptions` argument is
replaced by `defaultCspOptions` by the parameter default. -/
def getStrictCsp (scriptHashes? styleHashes? : Option (List String))
    (cspOptions? : Option CspOptions) : String :=
  let cspOptions := cspOptions?.getD defaultCspOptions
  let scriptHashes := scriptHashes?.getD []
  let styleHashes := styleHashes?.getD []
  serializeTemplate (getStrictCspTemplate scriptHashes styleHashes cspOptions)

/-- The token list the template holds for a directive name (`[]` when
the directive is absent). -/
def directiveTokens (tpl : CspTemplate) (key : String) : List String :=
  ((tpl.find? (fun p => p.1 == key)).map (fun p => p.2)).getD []

/-!
## Document model

Modelled from the spec: the Document Model Adapter (§4.3) — the cheerio
library — is an external collaborator whose code is not in the
repository.  Its contract is embedded as a minimal mutable-tree model:
an element has a tag name, an ordered attribute list and optional text
content (`none` models absent text, what `.html()` returns as a falsy
value); a document is the ordered children of `<head>` and of `<body>`,
and document order is head-then-body.  Selection is filtering by a
predicate, removal drops matching elements, `appendTo(body)` and
`prependTo(head)` insert at the container's end/front, and `attr(n, v)`
rewrites or appends one attribute.  The `StrictCsp` methods below are
translated from the source on top of these primitives.
-/

/-- One element of the document tree. -/
structure Elem where
  tag : String
  attrs : List (String × String)
  text? : Option String
deriving Repr, DecidableEq

/-- The document: the children of `<head>` and of `<body>`, in order. -/
structure Document where
  head : List Elem
  body : List Elem
deriving Repr, DecidableEq

/-- `$(elem).attr(name)`: the first attribute with this name, or absent. -/
def getAttr (e : Elem) (name : String) : Option String :=
  ((e.attrs.find? (fun p => p.1 == name)).map (fun p => p.2))

/-- `$(elem).attr(name, v)`: overwrite the attribute if present
(every pair with this name), else append it. -/
def setAttr (e : Elem) (name v : String) : Elem :=
  if e.attrs.any (fun p => p.1 == name) then
    { e with attrs := e.attrs.map (fun p => if p.1 == name then (p.1, v) else p) }
  else
    { e with attrs := e.attrs ++ [(name, v)] }

/-- The selector `script[src]` (`SOURCED_SCRIPT_SELECTOR`). -/
def isSourcedScript (e : Elem) : Bool :=
  e.tag == "script" && (getAttr e "src").isSome

/-- The selector `script:not([src])` (`INLINE_SCRIPT_SELECTOR`). -/
def isInlineScript (e : Elem) : Bool :=
  e.tag == "script" && (getAttr e "src").isNone

/-- The selector `style:not([href])` (`INLINE_STYLE_SELECTOR`). -/
def isInlineStyle (e : Elem) : Bool :=
  e.tag == "style" && (getAttr e "href").isNone

/-- The selector `meta[http-equiv="Content-Security-Policy"]`. -/
def isCspMeta (e : Elem) : Bool :=
  e.tag == "meta" && getAttr e "http-equiv" == some "Content-Security-Policy"

/-- `this.$(selector)`: all matching elements in document order. -/
def selectAll (p : Elem → Bool) (doc : Document) : List Elem :=
  (doc.head ++ doc.body).filter p

/-- `.remove()` applied to every element matching the predicate. -/
def removeAll (p : Elem → Bool) (doc : Document) : Document :=
  { head := doc.head.filter (fun e => !p e)
    body := doc.body.filter (fun e => !p e) }

/-- `.appendTo(this.$('body'))`. -/
def appendToBody (doc : Document) (e : Elem) : Document :=
  { doc with body := doc.body ++ [e] }

/-- `.prependTo(this.$('head'))`. -/
def prependToHead (doc : Document) (e : Elem) : Document :=
  { doc with head := e :: doc.head }

/-- Rewrite every element matching the predicate, in place. -/
def mapMatching (p : Elem → Bool) (f : Elem → Elem) (doc : Document) : Document :=
  { head := doc.head.map (fun e => if p e then f e else e)
    body := doc.body.map (fun e => if p e then f e else e) }

/-- The comma-joined single-quoted source list interpolated into the
loader template: `srcList.map(s => `'${s}'`).join()`. -/
def srcListFormatted (srcList : List String) : String :=
  String.intercalate "," (srcList.map (fun s => "'" ++ s ++ "'"))

/-- The loader template's text before the interpolated source list. -/
def loaderScriptOpen : String := "\n    var scripts = ["

/-- The loader template's text after the interpolated source list. -/
def loaderScriptClose : String :=
  "];\n    scripts.forEach(function(scriptUrl) \x7b\n      var s = document.createElement('script');\n      s.src = scriptUrl;\n      s.async = false; // preserve execution order.\n      document.body.appendChild(s);\n    \x7d);\n    "

/-- `StrictCsp.createLoaderScript`: `undefined` on an empty source list,
else the loader body with the formatted source list spliced in. -/
def createLoaderScript (srcList : List String) : Option String :=
  if srcList.isEmpty then none
  else some (loaderScriptOpen ++ srcListFormatted srcList ++ loaderScriptClose)

/-- `StrictCsp.refactorSourcedScriptsForHashBasedCsp`: record the `src`
of every `script[src]` element in document order while removing it, and
when the loader body is defined append one new inline `<script>` holding
it to `<body>`. -/
def refactorSourcedScriptsForHashBasedCsp (doc : Document) : Document :=
  let srcList := (selectAll isSourcedScript doc).filterMap (fun e => getAttr e "src")
  let doc := removeAll isSourcedScript doc
  match createLoaderScript srcList with
  | none => doc
  | some loaderScript => appendToBody doc { tag := "script", attrs := [], text? := some loaderScript }

/-- `StrictCsp.hashAllInlineScripts`: hash the text (`.html() || ''`) of
every `script:not([src])` element, in document order. -/
def hashAllInlineScripts (doc : Document) : List String :=
  (selectAll isInlineScript doc).map (fun e => hashInlineObject (e.text?.getD ""))

/-- `StrictCsp.hashAllInlineStyles`: hash the text of every
`style:not([href])` element, in document order. -/
def hashAllInlineStyles (doc : Document) : List String :=
  (selectAll isInlineStyle doc).map (fun e => hashInlineObject (e.text?.getD ""))

/-- The element parsed from `'<meta http-equiv="Content-Security-Policy">'`. -/
def cspMetaTemplate : Elem :=
  { tag := "meta", attrs := [("http-equiv", "Content-Security-Policy")], text? := none }

/-- `StrictCsp.addMetaTag`: when no CSP meta element exists, create one
as the first child of `<head>` and set its `content`; otherwise set
`content` on every selected CSP meta element. -/
def addMetaTag (doc : Document) (csp : String) : Document :=
  if (selectAll isCspMeta doc).isEmpty then
    prependToHead doc (setAttr cspMetaTemplate "content" csp)
  else
    mapMatching isCspMeta (fun e => setAttr e "content" csp) doc

end StrictCsp

namespace CspSpec

/-- Written from the spec's words (§4.2 step 4, 6): the `script-src`
token list is `'strict-dynamic'`, the given hashes, then — when
fallbacks are on — `https:` followed by `'unsafe-inline'` exactly when
the hash list is non-empty, and finally `'unsafe-eval'` when unsafe
eval is on. -/
def scriptSrcTokens (scriptHashes : List String) (o : StrictCsp.CspOptions) : List String :=
  "'strict-dynamic'" :: scriptHashes
    ++ (if StrictCsp.truthy o.enableBrowserFallbacks then
          "https:" :: (if scriptHashes.isEmpty then [] else ["'unsafe-inline'"])
        else [])
    ++ (if StrictCsp.truthy o.enableUnsafeEval then ["'unsafe-eval'"] else [])

/-- Written from the spec's words (§4.2 step 7): one segment per
directive, `"<name> <token1> <token2> ...;"`, tokens space-joined. -/
def segment (name : String) (tokens : List String) : String :=
  name ++ " " ++ String.intercalate " " tokens ++ ";"

/-- Written from the spec's words (§4.2, §6): the segments for
`script-src`, `style-src`, `object-src`, `base-uri` and — when Trusted
Types are on — `require-trusted-types-for`, concatenated with no
separator. -/
def buildPolicy (scriptHashes styleHashes : List String)
    (o : StrictCsp.CspOptions) : String :=
  segment "script-src" (scriptSrcTokens scriptHashes o)
    ++ segment "style-src" styleHashes
    ++ segment "object-src" ["'none'"]
    ++ segment "base-uri" ["'self'"]
    ++ (if StrictCsp.truthy o.enableTrustedTypes then
          segment "require-trusted-types-for" ["'script'"]
        else "")

/-- The single-quote character. -/
def quoteChar : Char := Char.ofNat 39

/-- After an opening quote: the token's characters up to the next quote
and the remainder past it, or `none` when no closing quote follows. -/
def scanToken : List Char → Option (List Char × List Char)
  | [] => none
  | c :: cs =>
    if c = quoteChar then some ([], cs)
    else
      match scanToken cs with
      | none => none
      | some (tok, rest) => some (c :: tok, rest)

/-- Fuel-indexed parser for a comma-separated list of single-quoted
tokens (the intended shape of the loader's source array literal). -/
def parseQuotedAux : Nat → List Char → Option (List String)
  | 0, _ => none
  | _ + 1, [] => none
  | fuel + 1, c :: cs =>
    if c = quoteChar then
      match scanToken cs with
      | none => none
      | some (tok, rest) =>
        match rest with
        | [] => some [String.mk tok]
        | r :: rs =>
          if r = ',' then (parseQuotedAux fuel rs).map (fun ts => String.mk tok :: ts)
          else none
    else none

/-- Recover the source URLs from a well-formed comma-separated
single-quoted token list; `none` when the text is not of that shape
(the quoted-token structure is broken). -/
def parseQuotedTokens (s : String) : Option (List String) :=
  parseQuotedAux (s.length + 1) s.data

end CspSpec

namespace StrictCsp

/-- The document parsed from
`<script src="a.js"></script><script src="b.js"></script>`: two sourced
scripts, in document order. -/
def docTwoSourcedScripts : Document :=
  { head := []
    body := [{ tag := "script", attrs := [("src", "a.js")], text? := none },
             { tag := "script", attrs := [("src", "b.js")], text? := none }] }

/-- A document with one inline script, `<script>alert(1)</script>`. -/
def docOneInlineScript : Document :=
  { head := [], body := [{ tag := "script", attrs := [], text? := some "alert(1)" }] }

/-- A mixed document: a style, a sourced script and a text-less inline
script in `<head>`, a div and an inline script in `<body>`. -/
def docMixedContent : Document :=
  { head := [{ tag := "style", attrs := [], text? := some "h1" },
             { tag := "script", attrs := [("src", "x.js")], text? := some "ignored" },
             { tag := "script", attrs := [], text? := none }]
    body := [{ tag := "div", attrs := [], text? := some "text" },
             { tag := "script", attrs := [], text? := some "alert(1)" }] }

/-- A document that already holds two CSP meta elements. -/
def docTwoCspMetas : Document :=
  { head := [cspMetaTemplate, cspMetaTemplate], body := [] }

end StrictCsp

/-!
## Helper lemmas
-/

namespace StrictCsp

/-- Closed form of the directive template: the four fixed directives
with the fully-assembled `script-src` token list, then the Trusted-Types
directive when enabled. -/
theorem getStrictCspTemplate_eq (sh st : List String) (o : CspOptions) :
    getStrictCspTemplate sh st o =
      [("script-src", CspSpec.scriptSrcTokens sh o),
       ("style-src", st),
       ("object-src", ["'none'"]),
       ("base-uri", ["'self'"])] ++
      (if truthy o.enableTrustedTypes then [("require-trusted-types-for", ["'script'"])] else []) := by
  cases hfb : truthy o.enableBrowserFallbacks <;>
  cases htt : truthy o.enableTrustedTypes <;>
  cases hue : truthy o.enableUnsafeEval <;>
  cases sh <;>
  simp [getStrictCspTemplate, pushTokens, setKey, CspSpec.scriptSrcTokens, hfb, htt, hue,
    List.append_assoc]

/-- The `script-src` entry of the template is the spec's token list. -/
theorem directiveTokens_scriptSrc (sh st : List String) (o : CspOptions) :
    directiveTokens (getStrictCspTemplate sh st o) "script-src" = CspSpec.scriptSrcTokens sh o := by
  rw [getStrictCspTemplate_eq]
  simp [directiveTokens]

/-- `setAttr` never changes the element's tag. -/
theorem setAttr_tag (e : Elem) (n v : String) : (setAttr e n v).tag = e.tag := by
  unfold setAttr; split <;> rfl

/-- Rewriting the pairs keyed `n` to value `v` makes the lookup of `n`
yield `v`, provided some pair with key `n` exists. -/
theorem find?_update_same (l : List (String × String)) (n v : String)
    (h : l.any (fun p => p.1 == n) = true) :
    (((l.map (fun p => if p.1 == n then (p.1, v) else p)).find?
        (fun p => p.1 == n)).map (fun p => p.2)) = some v := by
  induction l with
  | nil => simp at h
  | cons p l ih =>
    simp only [List.map_cons]
    cases hp : (p.1 == n)
    · rw [if_neg (by simp [hp])]
      rw [List.find?_cons_of_neg _ (by simp [hp])]
      apply ih
      simpa [List.any_cons, hp] using h
    · rw [if_pos rfl]
      rw [List.find?_cons_of_pos _ (by simpa using hp)]
      rfl

/-- Rewriting the pairs keyed `n` leaves the lookup of a key `m ≠ n`
unchanged. -/
theorem find?_update_ne (l : List (String × String)) (n m v : String) (hnm : m ≠ n) :
    ((l.map (fun p => if p.1 == n then (p.1, v) else p)).find? (fun p => p.1 == m))
      = l.find? (fun p => p.1 == m) := by
  induction l with
  | nil => rfl
  | cons p l ih =>
    simp only [List.map_cons]
    cases hp : (p.1 == n)
    · rw [if_neg (by simp [hp])]
      cases hm : (p.1 == m)
      · rw [List.find?_cons_of_neg _ (by simp [hm]),
          List.find?_cons_of_neg _ (by simp [hm]), ih]
      · rw [List.find?_cons_of_pos _ (by simpa using hm),
          List.find?_cons_of_pos _ (by simpa using hm)]
    · rw [if_pos rfl]
      have hpm : (p.1 == m) = false := by
        have h1 : p.1 = n := by simpa using hp
        simp [h1]
        exact Ne.symm hnm
      rw [List.find?_cons_of_neg _ (by simp [hpm]),
        List.find?_cons_of_neg _ (by simp [hpm]), ih]

/-- Appending a pair keyed `n` leaves the lookup of a key `m ≠ n`
unchanged. -/
theorem find?_append_key (l : List (String × String)) (n m v : String) (hnm : m ≠ n) :
    ((l ++ [(n, v)]).find? (fun p => p.1 == m)) = l.find? (fun p => p.1 == m) := by
  induction l with
  | nil =>
    simp only [List.nil_append]
    rw [List.find?_cons_of_neg _ (by simp; exact fun hh => hnm hh.symm)]
  | cons p l ih =>
    cases hm : (p.1 == m)
    · rw [List.cons_append, List.find?_cons_of_neg _ (by simp [hm]),
        List.find?_cons_of_neg _ (by simp [hm]), ih]
    · rw [List.cons_append, List.find?_cons_of_pos _ (by simpa using hm),
        List.find?_cons_of_pos _ (by simpa using hm)]

/-- Appending a pair keyed `n` to a list without that key makes the
lookup of `n` yield its value. -/
theorem find?_append_same (l : List (String × String)) (n v : String)
    (h : l.any (fun p => p.1 == n) = false) :
    (((l ++ [(n, v)]).find? (fun p => p.1 == n)).map (fun p => p.2)) = some v := by
  induction l with
  | nil =>
    simp only [List.nil_append]
    rw [List.find?_cons_of_pos _ (by simp)]
    rfl
  | cons p l ih =>
    have hp : (p.1 == n) = false := by
      simp only [List.any_cons, Bool.or_eq_false_iff] at h
      exact h.1
    rw [List.cons_append, List.find?_cons_of_neg _ (by simp [hp])]
    apply ih
    simp only [List.any_cons, Bool.or_eq_false_iff] at h
    exact h.2

/-- `attr(n, v)` then `attr(n)` reads back `v`. -/
theorem getAttr_setAttr_same (e : Elem) (n v : String) :
    getAttr (setAttr e n v) n = some v := by
  cases h : e.attrs.any (fun p => p.1 == n)
  · have hs : setAttr e n v = { e with attrs := e.attrs ++ [(n, v)] } := by
      unfold setAttr; rw [if_neg (by simp [h])]
    rw [hs]
    exact find?_append_same e.attrs n v h
  · have hs : setAttr e n v =
        { e with attrs := e.attrs.map (fun p => if p.1 == n then (p.1, v) else p) } := by
      unfold setAttr; rw [if_pos h]
    rw [hs]
    exact find?_update_same e.attrs n v h

/-- `attr(n, v)` leaves every other attribute unchanged. -/
theorem getAttr_setAttr_ne (e : Elem) (n m v : String) (hnm : m ≠ n) :
    getAttr (setAttr e n v) m = getAttr e m := by
  cases h : e.attrs.any (fun p => p.1 == n)
  · have hs : setAttr e n v = { e with attrs := e.attrs ++ [(n, v)] } := by
      unfold setAttr; rw [if_neg (by simp [h])]
    rw [hs]
    show ((e.attrs ++ [(n, v)]).find? (fun p => p.1 == m)).map (fun p => p.2) = _
    rw [find?_append_key e.attrs n m v hnm]
    rfl
  · have hs : setAttr e n v =
        { e with attrs := e.attrs.map (fun p => if p.1 == n then (p.1, v) else p) } := by
      unfold setAttr; rw [if_pos h]
    rw [hs]
    show ((e.attrs.map (fun p => if p.1 == n then (p.1, v) else p)).find?
      (fun p => p.1 == m)).map (fun p => p.2) = _
    rw [find?_update_ne e.attrs n m v hnm]
    rfl

/-- Setting `content` does not affect whether an element is the CSP
meta element. -/
theorem isCspMeta_setAttr_content (e : Elem) (v : String) :
    isCspMeta (setAttr e "content" v) = isCspMeta e := by
  unfold isCspMeta
  rw [setAttr_tag, getAttr_setAttr_ne e "content" "http-equiv" v (by decide)]

/-- Filtering after rewriting only the matching elements is rewriting
the filtered elements, when the rewrite preserves the predicate. -/
theorem filter_map_ite {α : Type} (p : α → Bool) (f : α → α) (l : List α)
    (hf : ∀ a, p a = true → p (f a) = true) :
    (l.map (fun a => if p a then f a else a)).filter p = (l.filter p).map f := by
  induction l with
  | nil => rfl
  | cons a l ih =>
    simp only [List.map_cons]
    cases ha : p a
    · rw [if_neg (by simp [ha]), List.filter_cons_of_neg (by simp [ha]),
        List.filter_cons_of_neg (by simp [ha]), ih]
    · rw [if_pos rfl, List.filter_cons_of_pos (by simp [hf a ha]),
        List.filter_cons_of_pos (by simpa using ha), List.map_cons, ih]

/-- Selection after `mapMatching` is the mapped selection, when the
rewrite preserves the predicate. -/
theorem selectAll_mapMatching (p : Elem → Bool) (f : Elem → Elem) (doc : Document)
    (hf : ∀ e, p e = true → p (f e) = true) :
    selectAll p (mapMatching p f doc) = (selectAll p doc).map f := by
  show ((doc.head.map _) ++ (doc.body.map _)).filter p = _
  rw [← List.map_append, filter_map_ite p f _ hf]
  rfl

/-- `addMetaTag` on a document without a CSP meta element prepends the
freshly configured meta element to `<head>`. -/
theorem addMetaTag_of_empty (doc : Document) (csp : String)
    (h : (selectAll isCspMeta doc).isEmpty = true) :
    addMetaTag doc csp = prependToHead doc (setAttr cspMetaTemplate "content" csp) := by
  unfold addMetaTag
  rw [if_pos h]

/-- `addMetaTag` on a document with a CSP meta element rewrites the
`content` of every selected element. -/
theorem addMetaTag_of_nonempty (doc : Document) (csp : String)
    (h : (selectAll isCspMeta doc).isEmpty = false) :
    addMetaTag doc csp = mapMatching isCspMeta (fun e => setAttr e "content" csp) doc := by
  unfold addMetaTag
  rw [if_neg (by simp [h])]

end StrictCsp

/-!
## Claim theorems
-/

namespace StrictCsp

/-- Claim C1: for every scriptHashes sequence, styleHashes sequence and
options, `getStrictCsp` returns exactly the spec's serialization —
segments `"<name> <tokens space-joined>;"` concatenated with no
separator, in the insertion order `script-src`, `style-src`,
`object-src`, `base-uri`, optionally `require-trusted-types-for` — and
on `([], [], defaults)` it is the byte-exact string
`"script-src 'strict-dynamic' https:;style-src ;object-src 'none';base-uri 'self';"`
(including the space before the semicolon of the empty `style-src`
segment). -/
theorem getStrictCsp_serialization :
    (∀ (sh st : List String) (o : CspOptions),
      getStrictCsp (some sh) (some st) (some o) = CspSpec.buildPolicy sh st o)
    ∧ getStrictCsp (some []) (some []) (some defaultCspOptions) =
        "script-src 'strict-dynamic' https:;style-src ;object-src 'none';base-uri 'self';" := by
  constructor
  · intro sh st o
    have h0 : getStrictCsp (some sh) (some st) (some o) =
        serializeTemplate (getStrictCspTemplate sh st o) := rfl
    rw [h0, getStrictCspTemplate_eq]
    cases htt : truthy o.enableTrustedTypes <;>
      simp [serializeTemplate, CspSpec.buildPolicy, CspSpec.segment, htt, String.join]
  · decide

/-- Claim C2: with browser fallbacks on, `script-src` is
`'strict-dynamic'`, the given hashes, then `https:`, then
`'unsafe-inline'` immediately after `https:` exactly when the hash list
is non-empty (and `'unsafe-eval'` last when enabled); with fallbacks
off, neither fallback token is appended — `https:` or
`'unsafe-inline'` then appears in `script-src` only if the caller put
it in the hash list itself. -/
theorem browserFallback_tokens (sh st : List String) (o : CspOptions) :
    (truthy o.enableBrowserFallbacks = true →
      directiveTokens (getStrictCspTemplate sh st o) "script-src" =
        "'strict-dynamic'" :: sh
          ++ ("https:" :: (if sh.isEmpty then [] else ["'unsafe-inline'"]))
          ++ (if truthy o.enableUnsafeEval then ["'unsafe-eval'"] else []))
    ∧ (truthy o.enableBrowserFallbacks = false →
        (directiveTokens (getStrictCspTemplate sh st o) "script-src" =
          "'strict-dynamic'" :: sh ++ (if truthy o.enableUnsafeEval then ["'unsafe-eval'"] else []))
        ∧ ("https:" ∈ directiveTokens (getStrictCspTemplate sh st o) "script-src" ↔ "https:" ∈ sh)
        ∧ ("'unsafe-inline'" ∈ directiveTokens (getStrictCspTemplate sh st o) "script-src" ↔
            "'unsafe-inline'" ∈ sh)) := by
  rw [directiveTokens_scriptSrc]
  constructor
  · intro hfb
    simp [CspSpec.scriptSrcTokens, hfb, List.append_assoc]
  · intro hfb
    refine ⟨by simp [CspSpec.scriptSrcTokens, hfb], ?_, ?_⟩ <;>
      cases hue : truthy o.enableUnsafeEval <;>
      simp [CspSpec.scriptSrcTokens, hfb, hue]

/-- Witness for claim C2, at the spec's example input
`(["'sha256-AAA='"], [], fallbacks on)` and at the same hashes with
fallbacks off. -/
theorem browserFallback_tokens_witness :
    directiveTokens (getStrictCspTemplate ["'sha256-AAA='"] []
        ⟨some true, some false, some false⟩) "script-src"
      = ["'strict-dynamic'", "'sha256-AAA='", "https:", "'unsafe-inline'"]
    ∧ directiveTokens (getStrictCspTemplate ["'sha256-AAA='"] []
        ⟨some false, some false, some false⟩) "script-src"
      = ["'strict-dynamic'", "'sha256-AAA='"] := by
  constructor
  · have h := (browserFallback_tokens ["'sha256-AAA='"] []
      ⟨some true, some false, some false⟩).1 rfl
    simpa using h
  · have h := ((browserFallback_tokens ["'sha256-AAA='"] []
      ⟨some false, some false, some false⟩).2 rfl).1
    simpa using h

/-- Claim C3: enabling Trusted Types appends the directive
`require-trusted-types-for` = `['script']` at the end of the template —
after `base-uri`, without touching the other entries (in particular
`script-src`) — the key order is always the four fixed directives
optionally followed by `require-trusted-types-for`; and with
`enableUnsafeEval` on, `'unsafe-eval'` is the last `script-src` token.
Both hold for every option combination, including both enabled
together. -/
theorem trustedTypes_unsafeEval_placement (sh st : List String) (o : CspOptions) :
    (truthy o.enableTrustedTypes = true →
      getStrictCspTemplate sh st o =
        getStrictCspTemplate sh st
            ⟨o.enableBrowserFallbacks, some false, o.enableUnsafeEval⟩
          ++ [("require-trusted-types-for", ["'script'"])])
    ∧ ((getStrictCspTemplate sh st o).map Prod.fst =
        ["script-src", "style-src", "object-src", "base-uri"]
          ++ (if truthy o.enableTrustedTypes then ["require-trusted-types-for"] else []))
    ∧ (truthy o.enableUnsafeEval = true →
        (directiveTokens (getStrictCspTemplate sh st o) "script-src").getLast? =
          some "'unsafe-eval'") := by
  refine ⟨?_, ?_, ?_⟩
  · intro htt
    rw [getStrictCspTemplate_eq, getStrictCspTemplate_eq]
    simp only [truthy] at htt
    simp [htt, CspSpec.scriptSrcTokens, truthy]
  · rw [getStrictCspTemplate_eq]
    cases htt : truthy o.enableTrustedTypes <;> simp [htt]
  · intro hue
    rw [directiveTokens_scriptSrc]
    have h1 : CspSpec.scriptSrcTokens sh o =
        ("'strict-dynamic'" :: sh
          ++ (if truthy o.enableBrowserFallbacks then
                "https:" :: (if sh.isEmpty then [] else ["'unsafe-inline'"])
              else [])) ++ ["'unsafe-eval'"] := by
      simp [CspSpec.scriptSrcTokens, hue, List.append_assoc]
    rw [h1, List.getLast?_concat]

/-- Witness for claim C3, with Trusted Types and unsafe-eval enabled
together. -/
theorem trustedTypes_unsafeEval_placement_witness :
    getStrictCspTemplate [] [] ⟨some true, some true, some true⟩ =
      getStrictCspTemplate [] [] ⟨some true, some false, some true⟩
        ++ [("require-trusted-types-for", ["'script'"])]
    ∧ (directiveTokens (getStrictCspTemplate [] [] ⟨some true, some true, some true⟩)
        "script-src").getLast? = some "'unsafe-eval'" :=
  ⟨(trustedTypes_unsafeEval_placement [] [] ⟨some true, some true, some true⟩).1 rfl,
   (trustedTypes_unsafeEval_placement [] [] ⟨some true, some true, some true⟩).2.2 rfl⟩

/-- Claim C4: `hashInlineObject text` is the single-quote-wrapped
literal `'sha256-<d>'` where `<d>` is the base64 encoding of the
SHA-256 digest of the UTF-8 encoding of `text`; it is pure (equal
inputs give equal outputs), and on `""` — whose UTF-8 encoding is the
empty byte sequence, with the well-known digest
`e3b0c442…52b855` — it returns the fixed constant
`'sha256-47DEQpj8HBSa+/TImW+5JCeuQeRkm5NMpJWZG3hSuFU='`. -/
theorem hashInlineObject_sha256_base64 :
    (∀ s : String, hashInlineObject s =
      "'sha256-" ++ Sha256.base64Encode (Sha256.sha256Bytes (Sha256.utf8Encode s)) ++ "'")
    ∧ (∀ s t : String, s = t → hashInlineObject s = hashInlineObject t)
    ∧ Sha256.utf8Encode "" = []
    ∧ Sha256.sha256Bytes [] =
        [0xe3, 0xb0, 0xc4, 0x42, 0x98, 0xfc, 0x1c, 0x14,
         0x9a, 0xfb, 0xf4, 0xc8, 0x99, 0x6f, 0xb9, 0x24,
         0x27, 0xae, 0x41, 0xe4, 0x64, 0x9b, 0x93, 0x4c,
         0xa4, 0x95, 0x99, 0x1b, 0x78, 0x52, 0xb8, 0x55]
    ∧ hashInlineObject "" = "'sha256-47DEQpj8HBSa+/TImW+5JCeuQeRkm5NMpJWZG3hSuFU='" := by
  refine ⟨fun s => rfl, fun s t h => by rw [h], by decide, by decide, by decide⟩

/-- Witness for claim C4's purity conjunct, at `"alert(1)"`. -/
theorem hashInlineObject_sha256_base64_witness :
    hashInlineObject "alert(1)" = hashInlineObject "alert(1)" :=
  hashInlineObject_sha256_base64.2.1 "alert(1)" "alert(1)" rfl

/-- Cross-check of the embedded SHA-256/base64 pipeline against the
published `"abc"` test vector. -/
theorem sha256_abc_vector :
    Sha256.base64Encode (Sha256.sha256Bytes (Sha256.utf8Encode "abc")) =
      "ungWv48Bz+pBQUDeXa4iI7ADYaOWF3qctBD/YfIAFa0=" := by decide

set_option maxRecDepth 8192 in
/-- Claim C5: on the document holding
`<script src="a.js"></script><script src="b.js"></script>`,
`refactorSourcedScriptsForHashBasedCsp` removes both sourced scripts
and appends to `<body>` exactly one new inline script whose text is the
loader body; that body is the byte-exact template that lists `'a.js'`
then `'b.js'` in order (the parse-back conjunct checks the order) and
sets `s.async = false` for each created script element. -/
theorem refactor_two_sourced_scripts :
    refactorSourcedScriptsForHashBasedCsp docTwoSourcedScripts =
      { head := []
        body := [{ tag := "script", attrs := []
                   text? := createLoaderScript ["a.js", "b.js"] }] }
    ∧ createLoaderScript ["a.js", "b.js"] =
        some "\n    var scripts = ['a.js','b.js'];\n    scripts.forEach(function(scriptUrl) \x7b\n      var s = document.createElement('script');\n      s.src = scriptUrl;\n      s.async = false; // preserve execution order.\n      document.body.appendChild(s);\n    \x7d);\n    "
    ∧ CspSpec.parseQuotedTokens (srcListFormatted ["a.js", "b.js"]) = some ["a.js", "b.js"] := by
  refine ⟨by decide, by decide, by decide⟩

/-- Claim C6: on every document with no `script[src]` element,
`refactorSourcedScriptsForHashBasedCsp` is the identity (nothing is
removed and no loader is inserted); and `createLoaderScript` returns
`none` exactly when its source list is empty. -/
theorem refactor_noop_without_sourced_scripts (doc : Document) (srcList : List String) :
    (selectAll isSourcedScript doc = [] →
      refactorSourcedScriptsForHashBasedCsp doc = doc)
    ∧ (createLoaderScript srcList = none ↔ srcList = []) := by
  constructor
  · intro h
    have hall : ∀ e ∈ doc.head ++ doc.body, ¬ isSourcedScript e = true :=
      List.filter_eq_nil_iff.mp h
    have hkeep : ∀ a ∈ doc.head ++ doc.body, (!isSourcedScript a) = true := by
      intro a ha
      cases hsc : isSourcedScript a
      · rfl
      · exact absurd hsc (hall a ha)
    have hh : doc.head.filter (fun e => !isSourcedScript e) = doc.head :=
      List.filter_eq_self.mpr (fun a ha => hkeep a (List.mem_append_left _ ha))
    have hb : doc.body.filter (fun e => !isSourcedScript e) = doc.body :=
      List.filter_eq_self.mpr (fun a ha => hkeep a (List.mem_append_right _ ha))
    have hrm : removeAll isSourcedScript doc = doc := by
      unfold removeAll
      rw [hh, hb]
    show (match createLoaderScript
        ((selectAll isSourcedScript doc).filterMap (fun e => getAttr e "src")) with
      | none => removeAll isSourcedScript doc
      | some loaderScript =>
        appendToBody (removeAll isSourcedScript doc)
          { tag := "script", attrs := [], text? := some loaderScript }) = doc
    rw [h]
    exact hrm
  · cases srcList <;> simp [createLoaderScript]

/-- Witness for claim C6: a document holding only an inline script is
left unchanged, and the loader for `[]` is absent. -/
theorem refactor_noop_without_sourced_scripts_witness :
    refactorSourcedScriptsForHashBasedCsp docOneInlineScript = docOneInlineScript
    ∧ (createLoaderScript [] = none ↔ ([] : List String) = []) :=
  ⟨(refactor_noop_without_sourced_scripts docOneInlineScript []).1 rfl,
   (refactor_noop_without_sourced_scripts docOneInlineScript []).2⟩

/-- Claim C7 (amended): on every document holding at most one CSP meta
element, `addMetaTag p1` then `addMetaTag p2` leaves exactly one CSP
meta element and its `content` is `p2`; when no CSP meta element
exists, `addMetaTag` creates one as the first child of `<head>`.  (The
original universal claim fails on documents that already hold two or
more CSP meta elements — see the counterexample.) -/
theorem addMetaTag_latest_call_wins (doc : Document) (p1 p2 : String) :
    ((selectAll isCspMeta doc).length ≤ 1 →
      (selectAll isCspMeta (addMetaTag (addMetaTag doc p1) p2)).length = 1
      ∧ ∀ e ∈ selectAll isCspMeta (addMetaTag (addMetaTag doc p1) p2),
          getAttr e "content" = some p2)
    ∧ ((selectAll isCspMeta doc).isEmpty = true →
        addMetaTag doc p1 = prependToHead doc (setAttr cspMetaTemplate "content" p1)) := by
  have hpres : ∀ v : String, ∀ e, isCspMeta e = true → isCspMeta (setAttr e "content" v) = true :=
    fun v e h => by rw [isCspMeta_setAttr_content]; exact h
  constructor
  · intro hle
    cases hsel : selectAll isCspMeta doc with
    | nil =>
      have h1 : addMetaTag doc p1 = prependToHead doc (setAttr cspMetaTemplate "content" p1) :=
        addMetaTag_of_empty doc p1 (by rw [hsel]; rfl)
      have hm1 : isCspMeta (setAttr cspMetaTemplate "content" p1) = true := rfl
      have hsel1 : selectAll isCspMeta (addMetaTag doc p1)
          = [setAttr cspMetaTemplate "content" p1] := by
        rw [h1]
        show ((setAttr cspMetaTemplate "content" p1 :: doc.head) ++ doc.body).filter isCspMeta = _
        rw [List.cons_append, List.filter_cons_of_pos hm1]
        have : (doc.head ++ doc.body).filter isCspMeta = [] := hsel
        rw [this]
      have h2 : addMetaTag (addMetaTag doc p1) p2
          = mapMatching isCspMeta (fun e => setAttr e "content" p2) (addMetaTag doc p1) :=
        addMetaTag_of_nonempty _ p2 (by rw [hsel1]; rfl)
      have hsel2 : selectAll isCspMeta (addMetaTag (addMetaTag doc p1) p2)
          = [setAttr (setAttr cspMetaTemplate "content" p1) "content" p2] := by
        rw [h2, selectAll_mapMatching _ _ _ (hpres p2), hsel1]
        rfl
      refine ⟨by rw [hsel2]; rfl, ?_⟩
      intro e he
      rw [hsel2] at he
      rw [List.mem_singleton] at he
      subst he
      exact getAttr_setAttr_same _ "content" p2
    | cons m ms =>
      have hms : ms = [] := by
        rw [hsel] at hle
        simp only [List.length_cons] at hle
        have : ms.length = 0 := by omega
        exact List.length_eq_zero.mp this
      subst hms
      have hm : isCspMeta m = true := by
        have hmem : m ∈ selectAll isCspMeta doc := by
          rw [hsel]; exact List.mem_singleton_self m
        exact List.of_mem_filter hmem
      have h1 : addMetaTag doc p1
          = mapMatching isCspMeta (fun e => setAttr e "content" p1) doc :=
        addMetaTag_of_nonempty doc p1 (by rw [hsel]; rfl)
      have hsel1 : selectAll isCspMeta (addMetaTag doc p1)
          = [setAttr m "content" p1] := by
        rw [h1, selectAll_mapMatching _ _ _ (hpres p1), hsel]
        rfl
      have h2 : addMetaTag (addMetaTag doc p1) p2
          = mapMatching isCspMeta (fun e => setAttr e "content" p2) (addMetaTag doc p1) :=
        addMetaTag_of_nonempty _ p2 (by rw [hsel1]; rfl)
      have hsel2 : selectAll isCspMeta (addMetaTag (addMetaTag doc p1) p2)
          = [setAttr (setAttr m "content" p1) "content" p2] := by
        rw [h2, selectAll_mapMatching _ _ _ (hpres p2), hsel1]
        rfl
      refine ⟨by rw [hsel2]; rfl, ?_⟩
      intro e he
      rw [hsel2] at he
      rw [List.mem_singleton] at he
      subst he
      exact getAttr_setAttr_same _ "content" p2
  · intro h
    exact addMetaTag_of_empty doc p1 h

/-- Witness for claim C7's amended theorem, on the empty document. -/
theorem addMetaTag_latest_call_wins_witness :
    ((selectAll isCspMeta (addMetaTag (addMetaTag (⟨[], []⟩ : Document) "p1") "p2")).length = 1
      ∧ ∀ e ∈ selectAll isCspMeta (addMetaTag (addMetaTag (⟨[], []⟩ : Document) "p1") "p2"),
          getAttr e "content" = some "p2")
    ∧ addMetaTag (⟨[], []⟩ : Document) "p1"
        = prependToHead (⟨[], []⟩ : Document) (setAttr cspMetaTemplate "content" "p1") :=
  ⟨(addMetaTag_latest_call_wins ⟨[], []⟩ "p1" "p2").1 (by decide),
   (addMetaTag_latest_call_wins ⟨[], []⟩ "p1" "p2").2 rfl⟩

/-- Counterexample to claim C7 as stated: on a document that already
holds two CSP meta elements, two `addMetaTag` calls leave two CSP meta
elements, not exactly one. -/
theorem addMetaTag_two_metas_counterexample :
    ¬ ((selectAll isCspMeta (addMetaTag (addMetaTag docTwoCspMetas "p1") "p2")).length = 1) := by
  decide

/-- Claim C8: `hashAllInlineScripts` maps `hashInlineObject` over the
text (`.html() || ''`, so absent text hashes as `""`) of exactly the
`script` elements without a `src` attribute, in document order, without
touching the document (it is a pure function of it); on a document with
one `<script>alert(1)</script>` it returns `[hashInlineObject
"alert(1)"]`, and on a mixed document the sourced script, the style and
the div are excluded while the text-less inline script contributes
`hashInlineObject ""`. -/
theorem hashAllInlineScripts_selection (doc : Document) :
    hashAllInlineScripts doc =
      ((doc.head ++ doc.body).filter isInlineScript).map
        (fun e => hashInlineObject (e.text?.getD ""))
    ∧ hashAllInlineScripts docOneInlineScript = [hashInlineObject "alert(1)"]
    ∧ hashAllInlineScripts docMixedContent = [hashInlineObject "", hashInlineObject "alert(1)"] :=
  ⟨rfl, rfl, rfl⟩

/-- Claim C9: the documented defaults live in the default value of the
`cspOptions` parameter, so they apply only when the whole argument is
omitted; an explicit options object whose `enableBrowserFallbacks`
field is absent behaves exactly like `enableBrowserFallbacks: false` —
no `https:` and no `'unsafe-inline'` is appended — while the omitted
argument takes the default (fallbacks on). -/
theorem absent_option_field_not_default (sh st : List String) (tt ue : Option Bool) :
    (getStrictCspTemplate sh st ⟨none, tt, ue⟩ = getStrictCspTemplate sh st ⟨some false, tt, ue⟩)
    ∧ (directiveTokens (getStrictCspTemplate sh st ⟨none, tt, ue⟩) "script-src" =
        "'strict-dynamic'" :: sh ++ (if truthy ue then ["'unsafe-eval'"] else []))
    ∧ (getStrictCsp (some sh) (some st) none =
        getStrictCsp (some sh) (some st) (some defaultCspOptions))
    ∧ getStrictCsp (some []) (some []) (some ⟨none, none, none⟩) =
        "script-src 'strict-dynamic';style-src ;object-src 'none';base-uri 'self';" := by
  refine ⟨?_, ?_, rfl, by decide⟩
  · rw [getStrictCspTemplate_eq, getStrictCspTemplate_eq]
    simp [CspSpec.scriptSrcTokens, truthy]
  · rw [directiveTokens_scriptSrc]
    simp [CspSpec.scriptSrcTokens, truthy]

/-- Claim C10: `createLoaderScript` splices each source URL between
single quotes, comma-joined, verbatim into the fixed template — no
escaping or validation — so a URL holding a single quote breaks the
quoted-token structure of the emitted array literal: the quote-free
list `["a.js", "b.js"]` parses back intact, while the formatted text
for `["a'b.js"]` no longer parses as a quoted token list at all. -/
theorem createLoaderScript_verbatim_urls :
    (∀ (s : String) (rest : List String),
      createLoaderScript (s :: rest) =
        some (loaderScriptOpen ++ srcListFormatted (s :: rest) ++ loaderScriptClose))
    ∧ (∀ s : String, srcListFormatted [s] = "'" ++ s ++ "'")
    ∧ CspSpec.parseQuotedTokens (srcListFormatted ["a.js", "b.js"]) = some ["a.js", "b.js"]
    ∧ CspSpec.parseQuotedTokens (srcListFormatted ["a'b.js"]) = none := by
  exact ⟨fun s rest => rfl, fun s => rfl, by decide, by decide⟩

end StrictCsp
